import Mathlib

/-!
Verification development for the gig-worker risk-scoring pipeline
(`backend/app/ml/anomaly_detection.py`, with the risk-level rule of
`backend/app/main.py` `verify_driver`).

The pandas dataframe is embedded as a `List` of typed rows; float columns
become `ℚ` (the pipeline's arithmetic is weighted sums, divisions and
comparisons, modelled exactly); a float `NaN` arising from an undefined
statistic (sample std of one value, 0/0 in min-max normalisation) becomes
`none : Option ℚ`.  The two fitted scikit-learn models (IsolationForest,
DBSCAN) and the standardiser are external-library code, not code of this
repository; they are abstracted as an arbitrary deterministic function of
the feature matrix (`MLFits`), parameterised by the random seed, exactly as
the source treats them (`random_state=42`, deterministic `fit_predict`).
Everything computed by the repository itself — feature engineering, score
normalisation, the five risk components, the total, the `pd.cut` level
binning, and the per-driver aggregation — is translated directly from the
source.
-/

namespace GigSafe

/-- The three categorical risk levels (labels of the `pd.cut` binning). -/
inductive RiskLevel
  | Low
  | Medium
  | High
deriving DecidableEq, Inhabited

/-- Sum of a list of rationals (pandas `sum`). -/
def sumQ (l : List ℚ) : ℚ := l.foldr (· + ·) 0

/-- Mean of a list of rationals (pandas `mean`; only ever applied to
non-empty groups in this development). -/
def meanQ (l : List ℚ) : ℚ := sumQ l / (l.length : ℚ)

/-- Maximum of a list of rationals (pandas `max` on a non-empty column; the
`0` returned for `[]` only ever feeds guards of the form `max > 0`, matching
pandas, where the max of an empty column is `NaN` and `NaN > 0` is false). -/
def maxQ : List ℚ → ℚ
  | [] => 0
  | [x] => x
  | x :: y :: ys => max x (maxQ (y :: ys))

/-- Minimum of a list of rationals (pandas `min`), same convention as `maxQ`. -/
def minQ : List ℚ → ℚ
  | [] => 0
  | [x] => x
  | x :: y :: ys => min x (minQ (y :: ys))

/-- Sample variance with `ddof = 1` (pandas `std` squared).  pandas yields
`NaN` for a single observation; the source's `std` is the square root of
this value, which is irrational in general — every claim about the std only
asks whether it is `0` or `NaN`, both of which are faithfully decided by the
variance, so the aggregate stores the variance. -/
def varQ (l : List ℚ) : Option ℚ :=
  if l.length ≤ 1 then none
  else some (sumQ (l.map (fun x => (x - meanQ l) ^ 2)) / ((l.length : ℚ) - 1))

/-- One raw trip record — the columns of `data/synthetic/trips.csv` that the
pipeline reads (`is_night` is the 0/1 flag column of the generator). -/
structure Trip where
  trip_id : ℕ
  driver_id : ℕ
  distance_km : ℚ
  duration_minutes : ℚ
  avg_speed_kmh : ℚ
  max_speed_kmh : ℚ
  hour_of_day : ℕ
  day_of_week : ℕ
  is_night : ℚ
  route_deviation_score : ℚ
deriving DecidableEq, Inhabited

/-- The five government-context columns added by `extract_features`. -/
structure GovFeats where
  gov_state_risk : ℚ
  gov_high_accident_time : ℚ
  gov_speed_accident_prone : ℚ
  gov_compound_risk : ℚ
  gov_deviation_risk_interaction : ℚ
deriving DecidableEq, Inhabited

/-- `default_state = "Rajasthan"` — every synthetic trip is assigned this
state before the government lookup. -/
def default_state : String := "Rajasthan"

/-- `high_accident_hours = [18, 19, 20, 21, 22, 23]` (hard-coded). -/
def high_accident_hours : List ℕ := [18, 19, 20, 21, 22, 23]

/-- The government table reduced to its `state_ut → risk_index` dictionary
(`government_data_df.set_index('state_ut')['risk_index'].to_dict()`). -/
def govCtxLookup (ctx : List (String × ℚ)) (s : String) : Option ℚ :=
  (ctx.find? (fun p => p.1 == s)).map (fun p => p.2)

/-- The government-context block of `extract_features`: computed features
when a non-empty government table is supplied (`has_gov_context`), neutral
placeholders `(50, 0, 0, 0, 0)` otherwise. -/
def govFeatures (ctx : Option (List (String × ℚ))) (t : Trip) : GovFeats :=
  match ctx with
  | some (p :: ps) =>
      let sr := (govCtxLookup (p :: ps) default_state).getD 50
      let hat : ℚ := if t.hour_of_day ∈ high_accident_hours then 1 else 0
      let sap : ℚ := if 80 < t.max_speed_kmh then 1 else 0
      { gov_state_risk := sr
        gov_high_accident_time := hat
        gov_speed_accident_prone := sap
        gov_compound_risk := sr * (1 / 2) + hat * 20 + sap * 30
        gov_deviation_risk_interaction := t.route_deviation_score * (sr / 100) }
  | _ =>
      { gov_state_risk := 50
        gov_high_accident_time := 0
        gov_speed_accident_prone := 0
        gov_compound_risk := 0
        gov_deviation_risk_interaction := 0 }

/-- One row of the engineered feature table: the trip plus every derived
column of `extract_features`. -/
structure FeatureRow where
  trip : Trip
  speed_variance : ℚ
  speed_vs_mean : ℚ
  speed_ratio : ℚ
  distance_per_minute : ℚ
  time_deviation : ℚ
  is_peak_hour : ℚ
  is_weekend : ℚ
  high_deviation : ℚ
  peer_avg_speed : ℚ
  peer_avg_duration : ℚ
  speed_vs_peer : ℚ
  duration_vs_peer : ℚ
  driver_trip_count : ℚ
  driver_avg_speed : ℚ
  driver_avg_deviation : ℚ
  speed_vs_self : ℚ
  gov : GovFeats
deriving DecidableEq, Inhabited

/-- All trips of one driver (`groupby('driver_id')`). -/
def driverTrips (trips : List Trip) (d : ℕ) : List Trip :=
  trips.filter (fun t => t.driver_id == d)

/-- All trips in the same `(hour_of_day, day_of_week)` bucket
(`groupby(['hour_of_day', 'day_of_week'])`). -/
def peerTrips (trips : List Trip) (h dw : ℕ) : List Trip :=
  trips.filter (fun t => t.hour_of_day == h && t.day_of_week == dw)

/-- `extract_features`: the whole-table feature engineering pass.  The
`speed_variance` column is the per-driver sample variance of `max_speed_kmh`
(the source stores its square root, a std; it feeds only the abstract
anomaly model, see `varQ`), `fillna(0)` for single-trip drivers. -/
def extract_features (ctx : Option (List (String × ℚ))) (trips : List Trip) :
    List FeatureRow :=
  trips.map (fun t =>
    let mine := driverTrips trips t.driver_id
    let peers := peerTrips trips t.hour_of_day t.day_of_week
    { trip := t
      speed_variance := (varQ (mine.map (fun u => u.max_speed_kmh))).getD 0
      speed_vs_mean := t.avg_speed_kmh - meanQ (trips.map (fun u => u.avg_speed_kmh))
      speed_ratio := t.max_speed_kmh / (t.avg_speed_kmh + 1 / 10)
      distance_per_minute := t.distance_km / (t.duration_minutes + 1 / 10)
      time_deviation := t.duration_minutes - t.distance_km * 4
      is_peak_hour :=
        if (17 ≤ t.hour_of_day ∧ t.hour_of_day ≤ 20) ∨
           (12 ≤ t.hour_of_day ∧ t.hour_of_day ≤ 14) then 1 else 0
      is_weekend := if 5 ≤ t.day_of_week then 1 else 0
      high_deviation := if 15 < t.route_deviation_score then 1 else 0
      peer_avg_speed := meanQ (peers.map (fun u => u.avg_speed_kmh))
      peer_avg_duration := meanQ (peers.map (fun u => u.duration_minutes))
      speed_vs_peer := t.avg_speed_kmh - meanQ (peers.map (fun u => u.avg_speed_kmh))
      duration_vs_peer := t.duration_minutes - meanQ (peers.map (fun u => u.duration_minutes))
      driver_trip_count := (mine.length : ℚ)
      driver_avg_speed := meanQ (mine.map (fun u => u.avg_speed_kmh))
      driver_avg_deviation := meanQ (mine.map (fun u => u.route_deviation_score))
      speed_vs_self := t.avg_speed_kmh - meanQ (mine.map (fun u => u.avg_speed_kmh))
      gov := govFeatures ctx t })

/-- The 14 columns fed to the IsolationForest (`feature_cols` of
`detect_anomalies_isolation_forest`); note that no government column is
among them. -/
def ifVec (r : FeatureRow) : List ℚ :=
  [r.trip.avg_speed_kmh, r.trip.max_speed_kmh, r.trip.distance_km,
   r.trip.duration_minutes, r.speed_variance, r.speed_ratio,
   r.trip.route_deviation_score, r.distance_per_minute, r.time_deviation,
   r.speed_vs_peer, r.duration_vs_peer, r.trip.is_night, r.is_peak_hour,
   r.speed_vs_self]

/-- The 6 columns fed to DBSCAN (`feature_cols` of
`cluster_behavior_patterns`); again no government column. -/
def dbVec (r : FeatureRow) : List ℚ :=
  [r.trip.avg_speed_kmh, r.trip.distance_km, r.trip.duration_minutes,
   r.trip.route_deviation_score, (r.trip.hour_of_day : ℚ),
   r.distance_per_minute]

/-- The externally-fitted models, abstracted as deterministic functions of
the feature matrix: `ifPredict` is the standardise + IsolationForest
`fit_predict` composite returning the anomaly flags (`-1` mapped to
`true`), `ifScore` is `score_samples` on the same matrix, `dbPredict` is
the standardise + DBSCAN `fit_predict` composite returning cluster ids.
The standardiser (mean/std scaling, hence a square root) is absorbed into
these functions. -/
structure MLFits where
  ifPredict : List (List ℚ) → List Bool
  ifScore : List (List ℚ) → List ℚ
  dbPredict : List (List ℚ) → List ℤ

/-- Min-max normalisation of the raw `score_samples` output, inverted and
scaled to 0–100:
`(1 - (s - min) / (max - min)) * 100`.  When every raw score is equal
(in particular for a single row) the source divides `0 / 0`, producing a
float `NaN`, modelled as `none`. -/
def normalize_anomaly_scores (scores : List ℚ) : List (Option ℚ) :=
  let mn := minQ scores
  let mx := maxQ scores
  scores.map (fun s =>
    if mx - mn = 0 then none
    else some ((1 - (s - mn) / (mx - mn)) * 100))

/-- A feature row augmented with the outputs of the two model stages
(`anomaly_if`, `anomaly_score_if`, `behavior_cluster`,
`is_outlier_dbscan`). -/
structure MLRow where
  feat : FeatureRow
  anomaly_if : Bool
  anomaly_score_if : Option ℚ
  behavior_cluster : ℤ
  is_outlier_dbscan : Bool
deriving DecidableEq, Inhabited

/-- Zip the model outputs back onto the feature rows, deriving
`is_outlier_dbscan` from the DBSCAN noise sentinel `-1`. -/
def attach_ml : List FeatureRow → List Bool → List (Option ℚ) → List ℤ →
    List MLRow
  | f :: fs, a :: bs, s :: ss, c :: cs =>
      { feat := f
        anomaly_if := a
        anomaly_score_if := s
        behavior_cluster := c
        is_outlier_dbscan := c == -1 } :: attach_ml fs bs ss cs
  | _, _, _, _ => []

/-- `detect_anomalies_isolation_forest`: flags from `fit_predict`, scores
from min-max-normalised `score_samples`. -/
def detect_anomalies (fits : MLFits) (feats : List FeatureRow) :
    List Bool × List (Option ℚ) :=
  (fits.ifPredict (feats.map ifVec),
   normalize_anomaly_scores (fits.ifScore (feats.map ifVec)))

/-- One row of the composer output: the ML row plus the five risk
components, the clamped total and the `pd.cut` level. -/
structure ScoredRow where
  row : MLRow
  risk_if : ℚ
  risk_dbscan : ℚ
  risk_route : ℚ
  speed_violation : ℚ
  risk_speed : ℚ
  risk_gov_context : ℚ
  risk_score : ℚ
  risk_level : Option RiskLevel
deriving DecidableEq, Inhabited

/-- `pd.cut(score, bins=[0, 30, 60, 100], labels=['Low','Medium','High'])`:
intervals are left-open right-closed, `(0,30] (30,60] (60,100]`; values
outside every bin (in particular `0` itself) get `NaN`, modelled `none`. -/
def riskLevelCut (s : ℚ) : Option RiskLevel :=
  if 0 < s ∧ s ≤ 30 then some RiskLevel.Low
  else if 30 < s ∧ s ≤ 60 then some RiskLevel.Medium
  else if 60 < s ∧ s ≤ 100 then some RiskLevel.High
  else none

/-- The per-row body of `calculate_risk_scores`, given the three
table-wide maxima. -/
def riskRow (use_gov : Bool) (max_deviation max_violation max_gov : ℚ)
    (r : MLRow) : ScoredRow :=
  let rif : ℚ := if r.anomaly_if then 30 else 0
  let rdb : ℚ := if r.is_outlier_dbscan then 25 else 0
  let rroute : ℚ :=
    if 0 < max_deviation then
      r.feat.trip.route_deviation_score / max_deviation * 15
    else 0
  let sv : ℚ := max 0 (r.feat.trip.max_speed_kmh - 60)
  let rspeed : ℚ := if 0 < max_violation then sv / max_violation * 10 else 0
  let rgov : ℚ :=
    if use_gov then
      if 0 < max_gov then r.feat.gov.gov_compound_risk / max_gov * 20 else 0
    else 0
  let total : ℚ := min (rif + rdb + rroute + rspeed + rgov) 100
  { row := r
    risk_if := rif
    risk_dbscan := rdb
    risk_route := rroute
    speed_violation := sv
    risk_speed := rspeed
    risk_gov_context := rgov
    risk_score := total
    risk_level := riskLevelCut total }

/-- `calculate_risk_scores`: five components per row (anomaly 30, outlier
25, route 15 scaled by the table max, speed-over-60 10 scaled by the table
max, government 20 scaled by the table max when enabled), total clipped at
100, level from `pd.cut`.  `use_gov` is `use_gov_context` (the
`gov_compound_risk` column itself is always present, see
`extract_features`). -/
def calculate_risk_scores (use_gov : Bool) (rows : List MLRow) :
    List ScoredRow :=
  let max_deviation := maxQ (rows.map (fun r => r.feat.trip.route_deviation_score))
  let max_violation := maxQ (rows.map (fun r => max 0 (r.feat.trip.max_speed_kmh - 60)))
  let max_gov := maxQ (rows.map (fun r => r.feat.gov.gov_compound_risk))
  rows.map (riskRow use_gov max_deviation max_violation max_gov)

/-- The risk-level rule of `verify_driver` in `backend/app/main.py`
(lines 280–286): strict `<` thresholds, no empty bin. -/
def verify_driver_risk_level (s : ℚ) : RiskLevel :=
  if s < 30 then RiskLevel.Low
  else if s < 60 then RiskLevel.Medium
  else RiskLevel.High

/-- One row of the per-driver aggregate table produced by
`aggregate_driver_scores`.  `risk_score_var` is the sample variance whose
square root the source stores as `risk_score_std` (see `varQ`). -/
structure DriverRow where
  driver_id : ℕ
  risk_score_mean : ℚ
  risk_score_max : ℚ
  risk_score_var : Option ℚ
  anomalous_trips : ℕ
  outlier_trips : ℕ
  avg_route_deviation : ℚ
  avg_speed : ℚ
  max_speed_ever : ℚ
  total_trips : ℕ
  anomaly_rate : ℚ
  driver_risk_score : ℚ
  driver_risk_level : Option RiskLevel
deriving DecidableEq, Inhabited

/-- The rows of one driver's group in the scored table. -/
def driverGroup (rows : List ScoredRow) (d : ℕ) : List ScoredRow :=
  rows.filter (fun r => r.row.feat.trip.driver_id == d)

/-- The aggregate row for one driver: pandas `groupby('driver_id').agg`,
then `anomaly_rate = anomalous_trips / total_trips * 100` and
`driver_risk_score = mean*0.6 + max*0.3 + anomaly_rate*0.1`, clipped at
100, level from `pd.cut`. -/
def driverAggRow (rows : List ScoredRow) (d : ℕ) : DriverRow :=
  let g := driverGroup rows d
  let scores := g.map (fun r => r.risk_score)
  let m := meanQ scores
  let mx := maxQ scores
  let anom := (g.filter (fun r => r.row.anomaly_if)).length
  let rate : ℚ := (anom : ℚ) / (g.length : ℚ) * 100
  let drs : ℚ := min (m * (6 / 10) + mx * (3 / 10) + rate * (1 / 10)) 100
  { driver_id := d
    risk_score_mean := m
    risk_score_max := mx
    risk_score_var := varQ scores
    anomalous_trips := anom
    outlier_trips := (g.filter (fun r => r.row.is_outlier_dbscan)).length
    avg_route_deviation := meanQ (g.map (fun r => r.row.feat.trip.route_deviation_score))
    avg_speed := meanQ (g.map (fun r => r.row.feat.trip.avg_speed_kmh))
    max_speed_ever := maxQ (g.map (fun r => r.row.feat.trip.max_speed_kmh))
    total_trips := g.length
    anomaly_rate := rate
    driver_risk_score := drs
    driver_risk_level := riskLevelCut drs }

/-- `aggregate_driver_scores`: one aggregate row per distinct `driver_id`
of the scored table.  (pandas emits the groups sorted by key; no claim
depends on the row order, and `dedup` keeps exactly the distinct keys.) -/
def aggregate_driver_scores (rows : List ScoredRow) : List DriverRow :=
  ((rows.map (fun r => r.row.feat.trip.driver_id)).dedup).map (driverAggRow rows)

/-- The table after the two model stages: features → IsolationForest
(flags and normalised scores) → DBSCAN (clusters and outlier flags). -/
def ml_rows (fits : MLFits) (ctx : Option (List (String × ℚ)))
    (trips : List Trip) : List MLRow :=
  let feats := extract_features ctx trips
  attach_ml feats ((detect_anomalies fits feats).1) ((detect_anomalies fits feats).2)
    (fits.dbPredict (feats.map dbVec))

/-- `run_full_pipeline`, scoring part: features → IsolationForest →
DBSCAN → risk composer → driver aggregation, with
`use_gov_context = (government_df is not None)`. -/
def run_scoring (fits : MLFits) (ctx : Option (List (String × ℚ)))
    (trips : List Trip) : List ScoredRow × List DriverRow :=
  let scored := calculate_risk_scores ctx.isSome (ml_rows fits ctx trips)
  (scored, aggregate_driver_scores scored)

/-- The fixed IsolationForest seed of the source (`random_state=42`). -/
def random_state : ℕ := 42

/-- One scoring invocation.  `model` gives, for each possible random seed,
the deterministic fitted behaviour of the external library; the source
always passes the constant `random_state = 42` and reads no other
run-dependent state (no clock, no fresh randomness), so the run index
cannot occur in the body. -/
def scoring_run (model : ℕ → MLFits) (_runIndex : ℕ)
    (ctx : Option (List (String × ℚ))) (trips : List Trip) :
    List ScoredRow × List DriverRow :=
  run_scoring (model random_state) ctx trips

/-- Errors surfaced by the pipeline on malformed input.  `SchemaError c`
models the pandas `KeyError` raised by the first column lookup on a table
lacking column `c` (the exception names the offending column). -/
inductive PipelineError
  | SchemaError (column : String)
deriving DecidableEq

/-- The trip-table columns the pipeline reads, in the order
`extract_features` and the detector first access them. -/
def required_trip_columns : List String :=
  ["driver_id", "max_speed_kmh", "avg_speed_kmh", "distance_km",
   "duration_minutes", "hour_of_day", "day_of_week", "route_deviation_score",
   "trip_id", "is_night"]

/-- A raw CSV table: the set of columns actually present plus the typed
view of its rows (meaningful once the schema is complete). -/
structure RawTable where
  cols : List String
  trips : List Trip

/-- The first required column absent from the table — the one whose
dynamic lookup raises. -/
def first_missing_column (cols : List String) : Option String :=
  required_trip_columns.find? (fun c => !(cols.contains c))

/-- `run_full_pipeline` including the dynamic schema check: a missing
required column aborts with the `SchemaError` before any output exists;
otherwise both output tables are produced together. -/
def run_full_pipeline (fits : MLFits) (ctx : Option (List (String × ℚ)))
    (tbl : RawTable) : Except PipelineError (List ScoredRow × List DriverRow) :=
  match first_missing_column tbl.cols with
  | some c => Except.error (PipelineError.SchemaError c)
  | none => Except.ok (run_scoring fits ctx tbl.trips)

/-- The model store: the three artifacts written by `save_models`
(`scaler.pkl`, `isolation_forest.pkl`, `dbscan.pkl`), each present or not. -/
structure ModelStore (α β γ : Type) where
  scaler : Option α
  isolation_forest : Option β
  dbscan : Option γ

/-- The failure of `load_models` when an artifact file is absent (the
`FileNotFoundError` of the source's `open`, the spec's
ModelNotTrainedError). -/
inductive LoadError
  | ModelNotTrained
deriving DecidableEq

/-- `save_models`: persists all three artifacts together. -/
def save_models {α β γ : Type} (s : α) (f : β) (d : γ) : ModelStore α β γ :=
  { scaler := some s, isolation_forest := some f, dbscan := some d }

/-- `load_models`: restores the three artifacts; any absent file makes the
corresponding `open` raise, so the load fails unless all three are
present. -/
def load_models {α β γ : Type} (st : ModelStore α β γ) :
    Except LoadError (α × β × γ) :=
  match st.scaler, st.isolation_forest, st.dbscan with
  | some s, some f, some d => Except.ok (s, f, d)
  | _, _, _ => Except.error LoadError.ModelNotTrained

/-! ### List-statistic lemmas -/

theorem le_maxQ : ∀ (l : List ℚ) (a : ℚ), a ∈ l → a ≤ maxQ l
  | [x], a, h => by
      simp only [List.mem_singleton] at h
      simp [maxQ, h]
  | x :: y :: ys, a, h => by
      rcases List.mem_cons.mp h with h | h
      · simp [maxQ, h, le_max_left]
      · exact le_trans (le_maxQ (y :: ys) a h) (by simp [maxQ, le_max_right])

theorem maxQ_eq_zero (l : List ℚ) (h : ∀ a ∈ l, a = 0) : maxQ l = 0 := by
  match l with
  | [] => rfl
  | [x] => simpa [maxQ] using h x (by simp)
  | x :: y :: ys =>
      have hx : x = 0 := h x (by simp)
      have hrest : maxQ (y :: ys) = 0 :=
        maxQ_eq_zero (y :: ys) (fun a ha => h a (List.mem_cons_of_mem _ ha))
      simp [maxQ, hx, hrest]

theorem meanQ_singleton (a : ℚ) : meanQ [a] = a := by
  simp [meanQ, sumQ]

theorem maxQ_singleton (a : ℚ) : maxQ [a] = a := rfl

theorem varQ_singleton (a : ℚ) : varQ [a] = none := rfl

/-! ### Concrete fixtures used by counterexamples and witnesses -/

/-- A trivial but perfectly legitimate instantiation of the fitted models:
no trip is flagged anomalous, the raw anomaly score is constantly 0, and
every trip lands in cluster 0 (so none is a DBSCAN outlier). -/
def constFits : MLFits :=
  { ifPredict := fun l => l.map (fun _ => false)
    ifScore := fun l => l.map (fun _ => 0)
    dbPredict := fun l => l.map (fun _ => 0) }

/-- The family of fitted-model behaviours indexed by the random seed, used
for the determinism claim; at every seed it behaves like `constFits`. -/
def constModel : ℕ → MLFits := fun _ => constFits

/-- A fully zero trip (hour 0, all numeric columns 0). -/
def zeroTrip : Trip :=
  { trip_id := 0, driver_id := 0, distance_km := 0, duration_minutes := 0
    avg_speed_kmh := 0, max_speed_kmh := 0, hour_of_day := 0, day_of_week := 0
    is_night := 0, route_deviation_score := 0 }

/-- The zero trip's feature row (no government context). -/
def zeroFeat : FeatureRow := (extract_features none [zeroTrip]).headI

/-- The zero trip with the anomaly flag set and no other flag: its total
risk score is exactly 30. -/
def anomalyMLRow : MLRow :=
  { feat := zeroFeat, anomaly_if := true, anomaly_score_if := none
    behavior_cluster := 0, is_outlier_dbscan := false }

/-- The zero trip with no flag at all: its total risk score is exactly 0. -/
def zeroMLRow : MLRow :=
  { feat := zeroFeat, anomaly_if := false, anomaly_score_if := none
    behavior_cluster := 0, is_outlier_dbscan := false }

/-- A single-trip driver: speeding (max 100 km/h) and deviating (score 10),
flagged as a DBSCAN outlier but NOT as an IsolationForest anomaly. -/
def c4Trip : Trip :=
  { trip_id := 1, driver_id := 7, distance_km := 5, duration_minutes := 20
    avg_speed_kmh := 40, max_speed_kmh := 100, hour_of_day := 10, day_of_week := 2
    is_night := 0, route_deviation_score := 10 }

def c4MLRow : MLRow :=
  { feat := (extract_features none [c4Trip]).headI, anomaly_if := false
    anomaly_score_if := none, behavior_cluster := -1, is_outlier_dbscan := true }

/-- An evening trip (hour 19 is in the hard-coded high-accident window),
otherwise unremarkable (max 50 km/h, no deviation). -/
def c5Trip : Trip :=
  { trip_id := 2, driver_id := 3, distance_km := 5, duration_minutes := 20
    avg_speed_kmh := 40, max_speed_kmh := 50, hour_of_day := 19, day_of_week := 2
    is_night := 0, route_deviation_score := 0 }

/-- A daytime trip outside both hard-coded government windows. -/
def benignTrip : Trip :=
  { trip_id := 3, driver_id := 4, distance_km := 5, duration_minutes := 20
    avg_speed_kmh := 40, max_speed_kmh := 50, hour_of_day := 10, day_of_week := 2
    is_night := 0, route_deviation_score := 3 }

/-- A government context that maps every region (including the default
state of every synthetic trip) to risk index 0. -/
def zeroCtx : List (String × ℚ) := [(default_state, 0)]

/-- A raw trip table whose `driver_id` column is absent. -/
def badTable : RawTable := { cols := ["trip_id", "distance_km"], trips := [] }

/-! ### Structural lemmas about the composer and the aggregator -/

theorem calc_risk_level_eq_cut (g : Bool) (rows : List MLRow) :
    ∀ s ∈ calculate_risk_scores g rows, s.risk_level = riskLevelCut s.risk_score := by
  intro s hs
  simp only [calculate_risk_scores, List.mem_map] at hs
  obtain ⟨r, _, rfl⟩ := hs
  rfl

theorem agg_risk_level_eq_cut (rows : List ScoredRow) :
    ∀ d ∈ aggregate_driver_scores rows,
      d.driver_risk_level = riskLevelCut d.driver_risk_score := by
  intro d hd
  simp only [aggregate_driver_scores, List.mem_map] at hd
  obtain ⟨w, _, rfl⟩ := hd
  rfl

theorem riskLevelCut_at_30 : riskLevelCut 30 = some RiskLevel.Low := by
  norm_num [riskLevelCut]

theorem riskLevelCut_at_60 : riskLevelCut 60 = some RiskLevel.Medium := by
  norm_num [riskLevelCut]

theorem riskLevelCut_at_0 : riskLevelCut 0 = none := by
  norm_num [riskLevelCut]

/-! ### Claim theorems -/

/-- Claim C1, counterexample: a trip whose five components sum to exactly 30
(anomaly flag only) has total risk score 30 and is classified `Low` by
`calculate_risk_scores` — not `Medium` as the claim states. -/
theorem risk_level_at_30_is_Low_cx :
    (calculate_risk_scores false [anomalyMLRow]).map (fun s => s.risk_score) = [30]
    ∧ (calculate_risk_scores false [anomalyMLRow]).map (fun s => s.risk_level)
        = [some RiskLevel.Low]
    ∧ some RiskLevel.Low ≠ some RiskLevel.Medium := by
  refine ⟨?_, ?_, by simp⟩
  · norm_num [calculate_risk_scores, riskRow, anomalyMLRow, zeroFeat, extract_features,
      driverTrips, peerTrips, govFeatures, varQ, meanQ, sumQ, maxQ, minQ, zeroTrip, List.headI]
  · norm_num [calculate_risk_scores, riskRow, anomalyMLRow, zeroFeat, extract_features,
      driverTrips, peerTrips, govFeatures, varQ, meanQ, sumQ, maxQ, minQ, zeroTrip, List.headI,
      riskLevelCut]

/-- Claim C1, amended: the ML-pipeline call sites (`calculate_risk_scores`
and `aggregate_driver_scores`) derive the level with `pd.cut`'s right-closed
bins — `(0,30]` Low, `(30,60]` Medium, `(60,100]` High — so a score of
exactly 30 is `Low` and exactly 60 is `Medium`; `verify_driver` in
`main.py` instead uses strict thresholds, classifying 30 as `Medium` and
60 as `High`.  The rule is therefore not uniform across call sites. -/
theorem risk_level_rule_not_uniform :
    (∀ (g : Bool) (rows : List MLRow),
        (calculate_risk_scores g rows).map (fun s => s.risk_level)
          = (calculate_risk_scores g rows).map (fun s => riskLevelCut s.risk_score))
    ∧ (∀ rows : List ScoredRow,
        (aggregate_driver_scores rows).map (fun d => d.driver_risk_level)
          = (aggregate_driver_scores rows).map (fun d => riskLevelCut d.driver_risk_score))
    ∧ riskLevelCut 30 = some RiskLevel.Low
    ∧ riskLevelCut 60 = some RiskLevel.Medium
    ∧ verify_driver_risk_level 30 = RiskLevel.Medium
    ∧ verify_driver_risk_level 60 = RiskLevel.High := by
  refine ⟨?_, ?_, riskLevelCut_at_30, riskLevelCut_at_60, ?_, ?_⟩
  · intro g rows
    exact List.map_congr_left (fun s hs => calc_risk_level_eq_cut g rows s hs)
  · intro rows
    exact List.map_congr_left (fun d hd => agg_risk_level_eq_cut rows d hd)
  · norm_num [verify_driver_risk_level]
  · norm_num [verify_driver_risk_level]

/-- Claim C7: on a single-row input the anomaly stage does not fail — the
min-max normalisation of `score_samples` divides 0/0 and silently emits a
`NaN` anomaly score (the source has no InsufficientDataError at all). -/
theorem single_row_anomaly_score_is_nan :
    (∀ s : ℚ, normalize_anomaly_scores [s] = [none])
    ∧ ∀ (fits : MLFits) (f : FeatureRow),
        (detect_anomalies fits [f]).2
          = normalize_anomaly_scores (fits.ifScore [ifVec f]) := by
  constructor
  · intro s
    simp [normalize_anomaly_scores, maxQ, minQ]
  · intro fits f
    rfl

/-- Claim C8: loading the model bundle when any of the three artifacts
(standardizer, IsolationForest, DBSCAN) has not been persisted fails with
the not-trained error. -/
theorem load_before_save_fails (α β γ : Type) (st : ModelStore α β γ)
    (h : st.scaler = none ∨ st.isolation_forest = none ∨ st.dbscan = none) :
    load_models st = Except.error LoadError.ModelNotTrained := by
  obtain ⟨s, f, d⟩ := st
  cases s <;> cases f <;> cases d <;> simp_all [load_models]

/-- Claim C8 witness: a store missing only the standardizer artifact. -/
theorem load_before_save_fails_witness :
    load_models (ModelStore.mk (none : Option Unit) (some 0) (some 0)) =
      Except.error LoadError.ModelNotTrained :=
  load_before_save_fails Unit ℕ ℕ _ (Or.inl rfl)

/-- Claim C9: two scoring runs on identical input produce identical anomaly
flags, anomaly scores, cluster ids, outlier flags and risk scores — the
source passes the constant seed `random_state = 42` to the models and reads
no other run-dependent state, so the run index cannot influence the
output. -/
theorem scoring_run_deterministic (model : ℕ → MLFits) (i j : ℕ)
    (ctx : Option (List (String × ℚ))) (trips : List Trip) :
    scoring_run model i ctx trips = scoring_run model j ctx trips := rfl

/-- Claim C10: a trip whose total risk score is exactly 0 falls outside
every `pd.cut` bin (the bins exclude their left endpoint), so its level is
null; the same holds for a driver whose aggregated score is exactly 0. -/
theorem zero_score_has_no_level :
    (∀ (g : Bool) (rows : List MLRow), ∀ s ∈ calculate_risk_scores g rows,
        s.risk_score = 0 → s.risk_level = none)
    ∧ ∀ rows : List ScoredRow, ∀ d ∈ aggregate_driver_scores rows,
        d.driver_risk_score = 0 → d.driver_risk_level = none := by
  constructor
  · intro g rows s hs h0
    rw [calc_risk_level_eq_cut g rows s hs, h0, riskLevelCut_at_0]
  · intro rows d hd h0
    rw [agg_risk_level_eq_cut rows d hd, h0, riskLevelCut_at_0]

/-- Claim C10 witness: the all-zero unflagged trip scores exactly 0 and its
level column is null, as is the level of its driver's aggregate. -/
theorem zero_score_has_no_level_witness :
    (calculate_risk_scores false [zeroMLRow]).headI.risk_level = none
    ∧ (aggregate_driver_scores (calculate_risk_scores false [zeroMLRow])).headI.driver_risk_level
        = none := by
  constructor
  · exact zero_score_has_no_level.1 false [zeroMLRow] _
      (by simp [calculate_risk_scores])
      (by norm_num [calculate_risk_scores, riskRow, zeroMLRow, zeroFeat, extract_features,
        driverTrips, peerTrips, govFeatures, varQ, meanQ, sumQ, maxQ, minQ, zeroTrip,
        List.headI])
  · exact zero_score_has_no_level.2 (calculate_risk_scores false [zeroMLRow]) _
      (by simp [aggregate_driver_scores, calculate_risk_scores])
      (by norm_num [aggregate_driver_scores, driverAggRow, driverGroup, calculate_risk_scores,
        riskRow, zeroMLRow, zeroFeat, extract_features, driverTrips, peerTrips, govFeatures,
        varQ, meanQ, sumQ, maxQ, minQ, zeroTrip, List.headI, List.dedup, riskLevelCut])

/-- Claim C6: a raw trip table lacking a required column makes the pipeline
abort with a `SchemaError` naming a missing required column, and neither
the per-trip nor the per-worker table is produced. -/
theorem missing_column_aborts (fits : MLFits) (ctx : Option (List (String × ℚ)))
    (tbl : RawTable) (c : String) (hreq : c ∈ required_trip_columns)
    (habs : ¬ c ∈ tbl.cols) :
    (first_missing_column tbl.cols).isSome = true
    ∧ (∀ c', first_missing_column tbl.cols = some c' →
        c' ∈ required_trip_columns ∧ ¬ c' ∈ tbl.cols
        ∧ run_full_pipeline fits ctx tbl = Except.error (PipelineError.SchemaError c'))
    ∧ ∀ out, run_full_pipeline fits ctx tbl ≠ Except.ok out := by
  have hsome : (first_missing_column tbl.cols).isSome = true := by
    rw [first_missing_column, List.find?_isSome]
    exact ⟨c, hreq, by simpa using habs⟩
  refine ⟨hsome, ?_, ?_⟩
  · intro c' hc'
    refine ⟨List.mem_of_find?_eq_some hc', ?_, ?_⟩
    · have := List.find?_some hc'
      simpa using this
    · simp [run_full_pipeline, hc']
  · intro out
    obtain ⟨c', hc'⟩ := Option.isSome_iff_exists.mp hsome
    simp [run_full_pipeline, first_missing_column] at hc' ⊢
    rw [hc']
    simp

/-- Claim C6 witness: a table with only `trip_id` and `distance_km` aborts
with the SchemaError naming `driver_id`, and never returns output. -/
theorem missing_column_aborts_witness :
    run_full_pipeline constFits none badTable
        = Except.error (PipelineError.SchemaError "driver_id")
    ∧ run_full_pipeline constFits none badTable ≠ Except.ok ([], []) := by
  have h := missing_column_aborts constFits none badTable "driver_id"
    (by simp [required_trip_columns]) (by simp [badTable])
  refine ⟨(h.2.1 "driver_id" ?_).2.2, h.2.2 ([], [])⟩
  simp [first_missing_column, badTable, required_trip_columns, List.find?]

/-- Bounds for a max-scaled component `(x / M) * k` guarded by `0 < M`. -/
theorem scaled_component_bounds (x M k : ℚ) (hx : 0 ≤ x) (hxM : x ≤ M)
    (hk : 0 ≤ k) :
    0 ≤ (if 0 < M then x / M * k else 0)
    ∧ (if 0 < M then x / M * k else 0) ≤ k := by
  split
  case isTrue hM =>
    constructor
    · exact mul_nonneg (div_nonneg hx hM.le) hk
    · calc x / M * k ≤ 1 * k :=
            mul_le_mul_of_nonneg_right ((div_le_one hM).mpr hxM) hk
        _ = k := one_mul k
  case isFalse => exact ⟨le_refl 0, hk⟩

/-- Claim C2: on any feature table drawn from the pipeline's input domain
(route-deviation scores are distances, hence non-negative, and the compound
government risk is built from a risk index in [0,100], hence non-negative),
each of the five components lies in [0, its weight] — anomaly ≤ 30, outlier
≤ 25, route ≤ 15, speed ≤ 10, government ≤ 20 — and the clipped total lies
in [0, 100]. -/
theorem risk_components_bounded (g : Bool) (rows : List MLRow)
    (hdev : ∀ r ∈ rows, 0 ≤ r.feat.trip.route_deviation_score)
    (hgov : ∀ r ∈ rows, 0 ≤ r.feat.gov.gov_compound_risk) :
    ∀ s ∈ calculate_risk_scores g rows,
      (0 ≤ s.risk_if ∧ s.risk_if ≤ 30)
      ∧ (0 ≤ s.risk_dbscan ∧ s.risk_dbscan ≤ 25)
      ∧ (0 ≤ s.risk_route ∧ s.risk_route ≤ 15)
      ∧ (0 ≤ s.risk_speed ∧ s.risk_speed ≤ 10)
      ∧ (0 ≤ s.risk_gov_context ∧ s.risk_gov_context ≤ 20)
      ∧ (0 ≤ s.risk_score ∧ s.risk_score ≤ 100) := by
  intro s hs
  simp only [calculate_risk_scores, List.mem_map] at hs
  obtain ⟨r, hr, rfl⟩ := hs
  simp only [riskRow]
  have hif : (0 : ℚ) ≤ (if r.anomaly_if then (30 : ℚ) else 0)
      ∧ (if r.anomaly_if then (30 : ℚ) else 0) ≤ 30 := by
    split <;> norm_num
  have hdb : (0 : ℚ) ≤ (if r.is_outlier_dbscan then (25 : ℚ) else 0)
      ∧ (if r.is_outlier_dbscan then (25 : ℚ) else 0) ≤ 25 := by
    split <;> norm_num
  have hroute := scaled_component_bounds r.feat.trip.route_deviation_score
    (maxQ (rows.map fun r => r.feat.trip.route_deviation_score)) 15
    (hdev r hr)
    (le_maxQ _ _ (List.mem_map_of_mem _ hr))
    (by norm_num)
  have hspeed := scaled_component_bounds (max 0 (r.feat.trip.max_speed_kmh - 60))
    (maxQ (rows.map fun r => max 0 (r.feat.trip.max_speed_kmh - 60))) 10
    (le_max_left 0 _)
    (le_maxQ _ _ (List.mem_map_of_mem _ hr))
    (by norm_num)
  have hgv : (0 : ℚ) ≤ (if g then
        if 0 < maxQ (rows.map fun r => r.feat.gov.gov_compound_risk) then
          r.feat.gov.gov_compound_risk /
            maxQ (rows.map fun r => r.feat.gov.gov_compound_risk) * 20
        else 0
      else 0)
      ∧ (if g then
        if 0 < maxQ (rows.map fun r => r.feat.gov.gov_compound_risk) then
          r.feat.gov.gov_compound_risk /
            maxQ (rows.map fun r => r.feat.gov.gov_compound_risk) * 20
        else 0
      else 0) ≤ 20 := by
    cases g
    · simp
    · simpa using scaled_component_bounds r.feat.gov.gov_compound_risk
        (maxQ (rows.map fun r => r.feat.gov.gov_compound_risk)) 20
        (hgov r hr)
        (le_maxQ _ _ (List.mem_map_of_mem _ hr))
        (by norm_num)
  refine ⟨hif, hdb, hroute, hspeed, hgv, ?_, min_le_right _ 100⟩
  exact le_min
    (add_nonneg (add_nonneg (add_nonneg (add_nonneg hif.1 hdb.1) hroute.1) hspeed.1) hgv.1)
    (by norm_num)

/-- Claim C2 witness: the bounds instantiated on the speeding, deviating,
outlier-flagged trip with the government component enabled. -/
theorem risk_components_bounded_witness :
    (0 ≤ (calculate_risk_scores true [c4MLRow]).headI.risk_if
      ∧ (calculate_risk_scores true [c4MLRow]).headI.risk_if ≤ 30)
    ∧ (0 ≤ (calculate_risk_scores true [c4MLRow]).headI.risk_dbscan
      ∧ (calculate_risk_scores true [c4MLRow]).headI.risk_dbscan ≤ 25)
    ∧ (0 ≤ (calculate_risk_scores true [c4MLRow]).headI.risk_route
      ∧ (calculate_risk_scores true [c4MLRow]).headI.risk_route ≤ 15)
    ∧ (0 ≤ (calculate_risk_scores true [c4MLRow]).headI.risk_speed
      ∧ (calculate_risk_scores true [c4MLRow]).headI.risk_speed ≤ 10)
    ∧ (0 ≤ (calculate_risk_scores true [c4MLRow]).headI.risk_gov_context
      ∧ (calculate_risk_scores true [c4MLRow]).headI.risk_gov_context ≤ 20)
    ∧ (0 ≤ (calculate_risk_scores true [c4MLRow]).headI.risk_score
      ∧ (calculate_risk_scores true [c4MLRow]).headI.risk_score ≤ 100) :=
  risk_components_bounded true [c4MLRow]
    (by
      intro r hr
      simp only [List.mem_singleton] at hr
      subst hr
      norm_num [c4MLRow, c4Trip, extract_features, driverTrips, peerTrips, govFeatures,
        varQ, meanQ, sumQ, maxQ, minQ, List.headI])
    (by
      intro r hr
      simp only [List.mem_singleton] at hr
      subst hr
      norm_num [c4MLRow, c4Trip, extract_features, driverTrips, peerTrips, govFeatures,
        varQ, meanQ, sumQ, maxQ, minQ, List.headI])
    _ (by simp [calculate_risk_scores])

/-- Claim C3: the driver aggregate has exactly one row per distinct worker
id present in the scored table (no-trip workers cannot appear), and each
row carries `anomaly_rate = anomalous / total × 100` and
`driver_risk_score = mean×0.6 + max×0.3 + anomaly_rate×0.1` of that
worker's per-trip risk scores, clamped at 100. -/
theorem aggregate_one_row_per_driver (rows : List ScoredRow) :
    ((aggregate_driver_scores rows).map (fun d => d.driver_id)).Nodup
    ∧ (∀ w : ℕ, w ∈ (aggregate_driver_scores rows).map (fun d => d.driver_id)
        ↔ w ∈ rows.map (fun r => r.row.feat.trip.driver_id))
    ∧ ∀ d ∈ aggregate_driver_scores rows,
        d.total_trips = (driverGroup rows d.driver_id).length
        ∧ d.anomalous_trips
            = ((driverGroup rows d.driver_id).filter (fun r => r.row.anomaly_if)).length
        ∧ d.anomaly_rate = (d.anomalous_trips : ℚ) / (d.total_trips : ℚ) * 100
        ∧ d.driver_risk_score
            = min (meanQ ((driverGroup rows d.driver_id).map (fun r => r.risk_score)) * (6 / 10)
                 + maxQ ((driverGroup rows d.driver_id).map (fun r => r.risk_score)) * (3 / 10)
                 + d.anomaly_rate * (1 / 10)) 100 := by
  have hids : (aggregate_driver_scores rows).map (fun d => d.driver_id)
      = (rows.map (fun r => r.row.feat.trip.driver_id)).dedup := by
    rw [aggregate_driver_scores, List.map_map]
    exact List.map_id' _
  refine ⟨?_, ?_, ?_⟩
  · rw [hids]; exact List.nodup_dedup _
  · intro w; rw [hids]; exact List.mem_dedup
  · intro d hd
    simp only [aggregate_driver_scores, List.mem_map] at hd
    obtain ⟨w, _, rfl⟩ := hd
    exact ⟨rfl, rfl, rfl, rfl⟩

/-- Claim C3 witness: the aggregate formulas instantiated on the scored
single-trip table of driver 7. -/
theorem aggregate_one_row_per_driver_witness :
    (aggregate_driver_scores (calculate_risk_scores false [c4MLRow])).headI.anomaly_rate
      = ((aggregate_driver_scores (calculate_risk_scores false [c4MLRow])).headI.anomalous_trips : ℚ)
        / ((aggregate_driver_scores (calculate_risk_scores false [c4MLRow])).headI.total_trips : ℚ)
        * 100 :=
  ((aggregate_one_row_per_driver (calculate_risk_scores false [c4MLRow])).2.2 _
    (by simp [aggregate_driver_scores, calculate_risk_scores])).2.2.1

/-- Claim C4, counterexample: driver 7 has exactly one trip, not flagged
anomalous; that trip's total risk score is 50 (outlier 25 + route 15 +
speed 10), yet the driver's aggregate risk score is 45 = 0.9 × 50, not 50,
and the aggregate's risk-score std is NaN (undefined), not 0. -/
theorem single_trip_aggregate_cx :
    (calculate_risk_scores false [c4MLRow]).map (fun s => s.risk_score) = [50]
    ∧ (calculate_risk_scores false [c4MLRow]).map (fun s => s.row.anomaly_if) = [false]
    ∧ (aggregate_driver_scores (calculate_risk_scores false [c4MLRow])).map
        (fun d => d.driver_risk_score) = [45]
    ∧ (aggregate_driver_scores (calculate_risk_scores false [c4MLRow])).map
        (fun d => d.risk_score_var) = [none]
    ∧ (45 : ℚ) ≠ 50 := by
  refine ⟨?_, ?_, ?_, ?_, by norm_num⟩
  · norm_num [calculate_risk_scores, riskRow, c4MLRow, extract_features, driverTrips,
      peerTrips, govFeatures, varQ, meanQ, sumQ, maxQ, minQ, c4Trip, List.headI]
  · simp [calculate_risk_scores, riskRow, c4MLRow]
  · norm_num [aggregate_driver_scores, driverAggRow, driverGroup, calculate_risk_scores,
      riskRow, c4MLRow, extract_features, driverTrips, peerTrips, govFeatures, varQ, meanQ,
      sumQ, maxQ, minQ, c4Trip, List.headI, List.dedup, riskLevelCut]
  · norm_num [aggregate_driver_scores, driverAggRow, driverGroup, calculate_risk_scores,
      riskRow, c4MLRow, extract_features, driverTrips, peerTrips, govFeatures, varQ, meanQ,
      sumQ, maxQ, minQ, c4Trip, List.headI, List.dedup, riskLevelCut]

/-- Claim C4, amended: for a worker with exactly one trip and no anomaly
flag, the aggregate's risk-score mean equals its max (the trip's total risk
score), the risk-score std is NaN (pandas sample std of one value), the
anomaly rate is 0, and the final driver risk score is 0.9 × the trip's
total risk score (clamped at 100) — not the trip's score itself. -/
theorem single_trip_driver_aggregate (rows : List ScoredRow) (d : DriverRow)
    (hd : d ∈ aggregate_driver_scores rows)
    (h1 : d.total_trips = 1) (h0 : d.anomalous_trips = 0) :
    d.risk_score_mean = d.risk_score_max
    ∧ d.risk_score_var = none
    ∧ d.anomaly_rate = 0
    ∧ d.driver_risk_score = min (d.risk_score_max * (9 / 10)) 100 := by
  simp only [aggregate_driver_scores, List.mem_map] at hd
  obtain ⟨w, _, rfl⟩ := hd
  simp only [driverAggRow] at h1 h0 ⊢
  obtain ⟨x, hx⟩ := List.length_eq_one.mp h1
  rw [hx] at h0 ⊢
  have hmean : meanQ [x.risk_score] = x.risk_score := meanQ_singleton _
  have hmax : maxQ [x.risk_score] = x.risk_score := maxQ_singleton _
  have hrate : (((([x] : List ScoredRow).filter (fun r => r.row.anomaly_if)).length : ℚ)
      / (([x] : List ScoredRow).length : ℚ) * 100) = 0 := by
    rw [h0]; norm_num
  simp only [List.map_cons, List.map_nil, hmean, hmax, varQ_singleton, hrate]
  refine ⟨trivial, trivial, trivial, ?_⟩
  congr 1
  ring

/-! ### Degraded-mode machinery (claim C5)

Comparing a run without regional context against a run with an all-zero
context: the two feature tables differ only in the raw `gov_state_risk`
column (placeholder 50 versus mapped 0), so the comparison is phrased
through the column-zeroing maps below. -/

/-- Zero out the raw regional risk-index column of a feature row. -/
def zeroStateRisk (r : FeatureRow) : FeatureRow :=
  { r with gov := { r.gov with gov_state_risk := 0 } }

/-- The same, lifted to a model-annotated row. -/
def zeroStateRiskML (r : MLRow) : MLRow :=
  { r with feat := zeroStateRisk r.feat }

/-- The same, lifted to a scored row. -/
def zeroStateRiskScored (s : ScoredRow) : ScoredRow :=
  { s with row := zeroStateRiskML s.row }

theorem govFeatures_zeroed (ctx : List (String × ℚ)) (t : Trip)
    (hz : ∀ p ∈ ctx, p.2 = 0) (hm : default_state ∈ ctx.map Prod.fst)
    (hh : t.hour_of_day ∉ high_accident_hours) (hs : t.max_speed_kmh ≤ 80) :
    govFeatures (some ctx) t = ⟨0, 0, 0, 0, 0⟩ := by
  cases ctx with
  | nil => simp at hm
  | cons p ps =>
    have hfind : ∃ q, (p :: ps).find? (fun q => q.1 == default_state) = some q := by
      rw [← Option.isSome_iff_exists, List.find?_isSome]
      obtain ⟨q, hq, hqd⟩ := List.mem_map.mp hm
      exact ⟨q, hq, by simp [hqd]⟩
    obtain ⟨q, hq⟩ := hfind
    have hq0 : q.2 = 0 := hz q (List.mem_of_find?_eq_some hq)
    have hlook : govCtxLookup (p :: ps) default_state = some 0 := by
      rw [govCtxLookup, hq]
      simp [hq0]
    norm_num [govFeatures, hlook, hh, not_lt.mpr hs]

theorem extract_features_zeroctx (ctx : List (String × ℚ)) (trips : List Trip)
    (hz : ∀ p ∈ ctx, p.2 = 0) (hm : default_state ∈ ctx.map Prod.fst)
    (ht : ∀ t ∈ trips, t.hour_of_day ∉ high_accident_hours ∧ t.max_speed_kmh ≤ 80) :
    extract_features (some ctx) trips
      = (extract_features none trips).map zeroStateRisk := by
  rw [extract_features, extract_features, List.map_map]
  refine List.map_congr_left (fun t htmem => ?_)
  have hg := govFeatures_zeroed ctx t hz hm (ht t htmem).1 (ht t htmem).2
  have h50 : govFeatures none t = ⟨50, 0, 0, 0, 0⟩ := rfl
  simp [zeroStateRisk, hg, h50]

theorem attach_ml_map_zero : ∀ (fs : List FeatureRow) (a : List Bool)
    (b : List (Option ℚ)) (c : List ℤ),
    attach_ml (fs.map zeroStateRisk) a b c
      = (attach_ml fs a b c).map zeroStateRiskML
  | [], a, b, c => by cases a <;> cases b <;> cases c <;> rfl
  | f :: fs, [], b, c => by rfl
  | f :: fs, a :: bs, [], c => by rfl
  | f :: fs, a :: bs, s :: ss, [] => by rfl
  | f :: fs, a :: bs, s :: ss, c :: cs => by
      simp only [List.map_cons, attach_ml]
      rw [attach_ml_map_zero fs bs ss cs]
      rfl

theorem attach_ml_feat_mem : ∀ (fs : List FeatureRow) (a : List Bool)
    (b : List (Option ℚ)) (c : List ℤ) (r : MLRow),
    r ∈ attach_ml fs a b c → r.feat ∈ fs
  | f :: fs, a :: bs, s :: ss, c :: cs, r => by
      intro hr
      rcases List.mem_cons.mp hr with h | h
      · subst h; exact List.mem_cons_self _ _
      · exact List.mem_cons_of_mem _ (attach_ml_feat_mem fs bs ss cs r h)
  | [], _, _, _, r => fun hr => absurd hr (List.not_mem_nil r)
  | f :: fs, [], _, _, r => fun hr => absurd hr (List.not_mem_nil r)
  | f :: fs, a :: bs, [], _, r => fun hr => absurd hr (List.not_mem_nil r)
  | f :: fs, a :: bs, s :: ss, [], r => fun hr => absurd hr (List.not_mem_nil r)

theorem extract_none_gov (trips : List Trip) :
    ∀ fr ∈ extract_features none trips, fr.gov = ⟨50, 0, 0, 0, 0⟩ := by
  intro fr hfr
  simp only [extract_features, List.mem_map] at hfr
  obtain ⟨t, _, rfl⟩ := hfr
  rfl

theorem calculate_map_zero (g : Bool) (l : List MLRow) :
    calculate_risk_scores g (l.map zeroStateRiskML)
      = (calculate_risk_scores g l).map zeroStateRiskScored := by
  simp only [calculate_risk_scores, List.map_map]
  rfl

theorem calculate_gov_zero (l : List MLRow)
    (h : ∀ r ∈ l, r.feat.gov.gov_compound_risk = 0) :
    calculate_risk_scores true l = calculate_risk_scores false l := by
  have hmax : maxQ (l.map (fun r => r.feat.gov.gov_compound_risk)) = 0 :=
    maxQ_eq_zero _ (by
      intro a ha
      obtain ⟨r, hr, rfl⟩ := List.mem_map.mp ha
      exact h r hr)
  rw [calculate_risk_scores, calculate_risk_scores, hmax]
  refine List.map_congr_left (fun r _ => ?_)
  simp [riskRow]

theorem aggregate_map_zero (l : List ScoredRow) :
    aggregate_driver_scores (l.map zeroStateRiskScored)
      = aggregate_driver_scores l := by
  rw [aggregate_driver_scores, aggregate_driver_scores, List.map_map]
  refine List.map_congr_left (fun w _ => ?_)
  have hg : driverGroup (l.map zeroStateRiskScored) w
      = (driverGroup l w).map zeroStateRiskScored := by
    rw [driverGroup, driverGroup, List.filter_map]
    rfl
  rw [driverAggRow, driverAggRow, hg]
  simp only [List.map_map, List.length_map, List.filter_map]
  rfl

theorem ml_rows_zeroctx (fits : MLFits) (ctx : List (String × ℚ))
    (trips : List Trip)
    (hz : ∀ p ∈ ctx, p.2 = 0) (hm : default_state ∈ ctx.map Prod.fst)
    (ht : ∀ t ∈ trips, t.hour_of_day ∉ high_accident_hours ∧ t.max_speed_kmh ≤ 80) :
    ml_rows fits (some ctx) trips = (ml_rows fits none trips).map zeroStateRiskML := by
  have hfe := extract_features_zeroctx ctx trips hz hm ht
  have hifv : ((extract_features none trips).map zeroStateRisk).map ifVec
      = (extract_features none trips).map ifVec := by
    rw [List.map_map]; rfl
  have hdbv : ((extract_features none trips).map zeroStateRisk).map dbVec
      = (extract_features none trips).map dbVec := by
    rw [List.map_map]; rfl
  simp only [ml_rows, detect_anomalies, hfe, hifv, hdbv]
  exact attach_ml_map_zero _ _ _ _

theorem ml_rows_none_compound (fits : MLFits) (trips : List Trip) :
    ∀ r ∈ ml_rows fits none trips, r.feat.gov.gov_compound_risk = 0 := by
  intro r hr
  have hfm := attach_ml_feat_mem _ _ _ _ r hr
  have hgov := extract_none_gov trips r.feat hfm
  rw [hgov]

/-- Claim C5, counterexample: for a single evening trip (hour 19, inside
the hard-coded high-accident window), the run without regional context
gives total risk score 0, while the run with a context mapping every region
to risk index 0 gives total risk score 20 — the government compound risk is
not zeroed because the high-accident-hour term is hard-coded, so the two
runs differ on the total risk score. -/
theorem degraded_mode_cx :
    (run_scoring constFits none [c5Trip]).1.map (fun s => s.risk_score) = [0]
    ∧ (run_scoring constFits (some zeroCtx) [c5Trip]).1.map (fun s => s.risk_score) = [20]
    ∧ (0 : ℚ) ≠ 20 := by
  refine ⟨?_, ?_, by norm_num⟩
  · norm_num [run_scoring, ml_rows, constFits, detect_anomalies, attach_ml,
      normalize_anomaly_scores, calculate_risk_scores, riskRow, extract_features,
      driverTrips, peerTrips, govFeatures, varQ, meanQ, sumQ, maxQ, minQ, c5Trip,
      ifVec, dbVec, List.headI, riskLevelCut]
  · norm_num [run_scoring, ml_rows, constFits, detect_anomalies, attach_ml,
      normalize_anomaly_scores, calculate_risk_scores, riskRow, extract_features,
      driverTrips, peerTrips, govFeatures, varQ, meanQ, sumQ, maxQ, minQ, c5Trip,
      ifVec, dbVec, List.headI, riskLevelCut, zeroCtx, govCtxLookup, default_state,
      high_accident_hours, List.find?]

/-- Claim C5, amended: the no-context run and the all-zero-context run
coincide — identically for the whole per-trip table up to the raw
`gov_state_risk` column (50 versus 0), identically on every total risk
score, and identically on the whole per-worker table — provided no trip
falls in the hard-coded high-accident hours (18–23) and none exceeds the
hard-coded 80 km/h accident-prone threshold; outside that domain the
hard-coded terms make the compound government risk non-zero and the totals
diverge (see the counterexample). -/
theorem degraded_mode_equivalence (fits : MLFits) (ctx : List (String × ℚ))
    (trips : List Trip)
    (hz : ∀ p ∈ ctx, p.2 = 0) (hm : default_state ∈ ctx.map Prod.fst)
    (ht : ∀ t ∈ trips, t.hour_of_day ∉ high_accident_hours ∧ t.max_speed_kmh ≤ 80) :
    ((run_scoring fits (some ctx) trips).1.map zeroStateRiskScored
        = (run_scoring fits none trips).1.map zeroStateRiskScored)
    ∧ ((run_scoring fits (some ctx) trips).1.map (fun s => s.risk_score)
        = (run_scoring fits none trips).1.map (fun s => s.risk_score))
    ∧ (run_scoring fits (some ctx) trips).2 = (run_scoring fits none trips).2
    ∧ (∀ s ∈ (run_scoring fits none trips).1, s.row.feat.gov.gov_state_risk = 50)
    ∧ (∀ s ∈ (run_scoring fits (some ctx) trips).1,
        s.row.feat.gov.gov_state_risk = 0) := by
  have hml := ml_rows_zeroctx fits ctx trips hz hm ht
  have hgtot : calculate_risk_scores true (ml_rows fits none trips)
      = calculate_risk_scores false (ml_rows fits none trips) :=
    calculate_gov_zero _ (ml_rows_none_compound fits trips)
  have hB : (run_scoring fits (some ctx) trips).1
      = (calculate_risk_scores false (ml_rows fits none trips)).map zeroStateRiskScored := by
    show calculate_risk_scores (some ctx).isSome (ml_rows fits (some ctx) trips) = _
    rw [Option.isSome_some, hml, calculate_map_zero, hgtot]
  have hA : (run_scoring fits none trips).1
      = calculate_risk_scores false (ml_rows fits none trips) := rfl
  refine ⟨?_, ?_, ?_, ?_, ?_⟩
  · rw [hB, hA, List.map_map]
    rfl
  · rw [hB, hA, List.map_map]
    rfl
  · show aggregate_driver_scores (run_scoring fits (some ctx) trips).1
        = aggregate_driver_scores (run_scoring fits none trips).1
    rw [hB, hA, aggregate_map_zero]
  · intro s hs
    rw [hA] at hs
    simp only [calculate_risk_scores, List.mem_map] at hs
    obtain ⟨r, hr, rfl⟩ := hs
    show r.feat.gov.gov_state_risk = 50
    rw [extract_none_gov trips r.feat (attach_ml_feat_mem _ _ _ _ r hr)]
  · intro s hs
    rw [hB] at hs
    obtain ⟨s', _, rfl⟩ := List.mem_map.mp hs
    rfl

/-- Claim C5 witness: the equivalence instantiated on a benign daytime trip
with the all-zero context covering the default state. -/
theorem degraded_mode_equivalence_witness :
    ((run_scoring constFits (some zeroCtx) [benignTrip]).1.map (fun s => s.risk_score)
        = (run_scoring constFits none [benignTrip]).1.map (fun s => s.risk_score))
    ∧ (run_scoring constFits (some zeroCtx) [benignTrip]).2
        = (run_scoring constFits none [benignTrip]).2 :=
  ⟨(degraded_mode_equivalence constFits zeroCtx [benignTrip]
      (by simp [zeroCtx]) (by simp [zeroCtx])
      (by
        intro t htr
        simp only [List.mem_singleton] at htr
        subst htr
        norm_num [benignTrip, high_accident_hours])).2.1,
   (degraded_mode_equivalence constFits zeroCtx [benignTrip]
      (by simp [zeroCtx]) (by simp [zeroCtx])
      (by
        intro t htr
        simp only [List.mem_singleton] at htr
        subst htr
        norm_num [benignTrip, high_accident_hours])).2.2.1⟩

/-- Claim C4 witness: the amended statement instantiated on driver 7's
single-trip table. -/
theorem single_trip_driver_aggregate_witness :
    (aggregate_driver_scores (calculate_risk_scores false [c4MLRow])).headI.driver_risk_score
      = min ((aggregate_driver_scores (calculate_risk_scores false [c4MLRow])).headI.risk_score_max
          * (9 / 10)) 100 :=
  (single_trip_driver_aggregate (calculate_risk_scores false [c4MLRow]) _
    (by simp [aggregate_driver_scores, calculate_risk_scores])
    (by norm_num [aggregate_driver_scores, driverAggRow, driverGroup, calculate_risk_scores,
      riskRow, List.headI, List.dedup])
    (by simp [aggregate_driver_scores, driverAggRow, driverGroup, calculate_risk_scores,
      riskRow, c4MLRow, List.headI, List.dedup])).2.2.2

end GigSafe
